import Mathlib

/-!
Verification development for the ghostbusters doorbell detection pipeline.

The definitions below are shallow embeddings of the Python source:
  * the presence/capture tracker of `backend/scripts/main.py`
    (consecutive-detection counting, capture cooldown, ROI filtering),
  * the dual-pass costume gate of `backend/src/costume_detector.py`,
  * the fan-out upload/cleanup block of `backend/scripts/main.py`,
  * the face blurring of `backend/src/utils/face_blur.py`,
  * the Baseten client `classify_costume` of
    `backend/src/clients/baseten_client.py`.

Timestamps and floating point quantities are modelled as rationals,
Python `int(...)` truncation is modelled explicitly, and external
collaborators (YOLO, the Baseten HTTP endpoint, cv2 blurring, the backend
store) appear as explicit inputs or oracle functions.
-/

/-! ## Presence tracker state machine (backend/scripts/main.py, lines 133-263, 369-373) -/

/-- One sampled frame as the tracker sees it: the wall-clock time taken just
after YOLO ran (line 207) and whether a qualifying person was detected. -/
structure FrameInput where
  now : ℚ
  present : Bool
deriving DecidableEq

/-- The cross-frame state of `backend/scripts/main.py` (lines 134-136). -/
structure TrackerState where
  consecutive_detections : ℕ
  last_capture_time : ℚ
  in_cooldown : Bool
deriving DecidableEq

/-- Seconds to wait before next capture (line 71). -/
def CAPTURE_COOLDOWN : ℚ := 60

/-- Number of consecutive detections before capture (line 70). -/
def CONSECUTIVE_FRAMES_REQUIRED : ℕ := 2

/-- Module-level initialisation of the tracking state (lines 134-136). -/
def initialTrackerState : TrackerState := ⟨0, 0, false⟩

/-- One iteration of the detection-tracking logic of the main loop
(lines 209-263 and 369-373), for a single sampled frame.  Returns the new
state and whether a capture fired on this frame.  While in cooldown the
frame is consumed without evaluating `present` (the `continue` on line 218);
a capture zeroes the counter, records the capture time and enters cooldown
(lines 260-262); an absent frame resets the counter (line 373). -/
def trackerStep (s : TrackerState) (f : FrameInput) : TrackerState × Bool :=
  if s.in_cooldown then
    if CAPTURE_COOLDOWN ≤ f.now - s.last_capture_time then
      (⟨0, s.last_capture_time, false⟩, false)
    else
      (⟨0, s.last_capture_time, true⟩, false)
  else if f.present then
    if CONSECUTIVE_FRAMES_REQUIRED ≤ s.consecutive_detections + 1 then
      (⟨0, f.now, true⟩, true)
    else
      (⟨s.consecutive_detections + 1, s.last_capture_time, s.in_cooldown⟩, false)
  else
    (⟨0, s.last_capture_time, s.in_cooldown⟩, false)

/-- The state after running the tracker over a list of sampled frames. -/
def runState (s : TrackerState) (fs : List FrameInput) : TrackerState :=
  fs.foldl (fun s f => (trackerStep s f).1) s

/-- The timestamps at which captures fire while running the tracker over a
list of sampled frames, in order. -/
def runCaps (s : TrackerState) : List FrameInput → List ℚ
  | [] => []
  | f :: fs =>
    if (trackerStep s f).2 then f.now :: runCaps (trackerStep s f).1 fs
    else runCaps (trackerStep s f).1 fs

/-- Sampled frames arrive with nondecreasing timestamps. -/
def timesSorted : List FrameInput → Bool
  | [] => true
  | [_] => true
  | f :: g :: fs => if f.now ≤ g.now then timesSorted (g :: fs) else false

theorem trackerStep_cooldown_expired {s : TrackerState} {f : FrameInput}
    (h : s.in_cooldown = true) (h60 : CAPTURE_COOLDOWN ≤ f.now - s.last_capture_time) :
    trackerStep s f = (⟨0, s.last_capture_time, false⟩, false) := by
  simp [trackerStep, h, h60]

theorem trackerStep_cooldown_active {s : TrackerState} {f : FrameInput}
    (h : s.in_cooldown = true) (h60 : ¬ CAPTURE_COOLDOWN ≤ f.now - s.last_capture_time) :
    trackerStep s f = (⟨0, s.last_capture_time, true⟩, false) := by
  simp [trackerStep, h, h60]

theorem trackerStep_fire {s : TrackerState} {f : FrameInput}
    (h : s.in_cooldown = false) (hp : f.present = true)
    (hc : CONSECUTIVE_FRAMES_REQUIRED ≤ s.consecutive_detections + 1) :
    trackerStep s f = (⟨0, f.now, true⟩, true) := by
  simp [trackerStep, h, hp, hc]

theorem trackerStep_count {s : TrackerState} {f : FrameInput}
    (h : s.in_cooldown = false) (hp : f.present = true)
    (hc : ¬ CONSECUTIVE_FRAMES_REQUIRED ≤ s.consecutive_detections + 1) :
    trackerStep s f = (⟨s.consecutive_detections + 1, s.last_capture_time, false⟩, false) := by
  simp [trackerStep, h, hp, hc]

theorem trackerStep_absent {s : TrackerState} {f : FrameInput}
    (h : s.in_cooldown = false) (hp : f.present = false) :
    trackerStep s f = (⟨0, s.last_capture_time, false⟩, false) := by
  simp [trackerStep, h, hp]

theorem timesSorted_tail {f : FrameInput} {fs : List FrameInput}
    (h : timesSorted (f :: fs) = true) : timesSorted fs = true := by
  cases fs with
  | nil => rfl
  | cons g gs =>
    by_cases hle : f.now ≤ g.now
    · simpa [timesSorted, hle] using h
    · simp [timesSorted, hle] at h

theorem timesSorted_head_le {f : FrameInput} {fs : List FrameInput}
    (h : timesSorted (f :: fs) = true) : ∀ g ∈ fs, f.now ≤ g.now := by
  induction fs generalizing f with
  | nil => intro g hg; simp at hg
  | cons g gs ih =>
    intro x hx
    by_cases hle : f.now ≤ g.now
    · have hrest : timesSorted (g :: gs) = true := by
        simpa [timesSorted, hle] using h
      rcases List.mem_cons.mp hx with rfl | hx'
      · exact hle
      · exact le_trans hle (ih hrest x hx')
    · simp [timesSorted, hle] at h

/-- Every capture time is the timestamp of one of the frames. -/
theorem runCaps_mem_times :
    ∀ (fs : List FrameInput) (s : TrackerState) (t : ℚ),
      t ∈ runCaps s fs → ∃ f ∈ fs, t = f.now := by
  intro fs
  induction fs with
  | nil => intro s t ht; simp [runCaps] at ht
  | cons f fs ih =>
    intro s t ht
    rw [runCaps] at ht
    by_cases hf : (trackerStep s f).2 = true
    · rw [if_pos hf] at ht
      rcases List.mem_cons.mp ht with rfl | ht'
      · exact ⟨f, List.mem_cons_self f fs, rfl⟩
      · obtain ⟨g, hg, rfl⟩ := ih _ t ht'
        exact ⟨g, List.mem_cons_of_mem f hg, rfl⟩
    · rw [if_neg hf] at ht
      obtain ⟨g, hg, rfl⟩ := ih _ t ht
      exact ⟨g, List.mem_cons_of_mem f hg, rfl⟩

/-- While the tracker is in cooldown with capture time `last_capture_time`,
any later capture over time-sorted frames happens at least
`CAPTURE_COOLDOWN` seconds after it. -/
theorem runCaps_cooldown_lb :
    ∀ (fs : List FrameInput) (s : TrackerState),
      s.in_cooldown = true → timesSorted fs = true →
      ∀ t ∈ runCaps s fs, s.last_capture_time + CAPTURE_COOLDOWN ≤ t := by
  intro fs
  induction fs with
  | nil => intro s _ _ t ht; simp [runCaps] at ht
  | cons f fs ih =>
    intro s hcd hsort t ht
    by_cases h60 : CAPTURE_COOLDOWN ≤ f.now - s.last_capture_time
    · rw [runCaps, trackerStep_cooldown_expired hcd h60] at ht
      simp only [if_neg (by simp : ¬ ((false : Bool) = true))] at ht
      obtain ⟨g, hg, rfl⟩ := runCaps_mem_times fs _ t ht
      have hfg : f.now ≤ g.now := timesSorted_head_le hsort g hg
      have : s.last_capture_time + CAPTURE_COOLDOWN ≤ f.now := by linarith
      linarith
    · rw [runCaps, trackerStep_cooldown_active hcd h60] at ht
      simp only [if_neg (by simp : ¬ ((false : Bool) = true))] at ht
      exact ih ⟨0, s.last_capture_time, true⟩ rfl (timesSorted_tail hsort) t ht

/-- Captures over a time-sorted frame sequence are pairwise separated by at
least `CAPTURE_COOLDOWN` seconds. -/
theorem runCaps_pairwise :
    ∀ (fs : List FrameInput) (s : TrackerState), timesSorted fs = true →
      List.Pairwise (fun a b => a + CAPTURE_COOLDOWN ≤ b) (runCaps s fs) := by
  intro fs
  induction fs with
  | nil => intro s _; simp [runCaps]
  | cons f fs ih =>
    intro s hsort
    have htail := timesSorted_tail hsort
    by_cases hcd : s.in_cooldown = true
    · by_cases h60 : CAPTURE_COOLDOWN ≤ f.now - s.last_capture_time
      · rw [runCaps, trackerStep_cooldown_expired hcd h60]
        simpa using ih _ htail
      · rw [runCaps, trackerStep_cooldown_active hcd h60]
        simpa using ih _ htail
    · have hcd' : s.in_cooldown = false := by
        cases h : s.in_cooldown
        · rfl
        · exact absurd h hcd
      by_cases hp : f.present = true
      · by_cases hc : CONSECUTIVE_FRAMES_REQUIRED ≤ s.consecutive_detections + 1
        · rw [runCaps, trackerStep_fire hcd' hp hc]
          simp only [if_pos (rfl : (true : Bool) = true)]
          refine List.Pairwise.cons ?_ (ih _ htail)
          intro t ht
          have := runCaps_cooldown_lb fs ⟨0, f.now, true⟩ rfl htail t ht
          simpa using this
        · rw [runCaps, trackerStep_count hcd' hp hc]
          simpa using ih _ htail
      · have hp' : f.present = false := by
          cases h : f.present
          · rfl
          · exact absurd h hp
        rw [runCaps, trackerStep_absent hcd' hp']
        simpa using ih _ htail

/-- C1 (cooldown exclusivity): over any time-sorted sequence of sampled
frames, whatever the per-frame `present` verdicts, any two CaptureEvents
emitted by the tracker started in its initial state are at least
`CAPTURE_COOLDOWN` (the code's `cooldown_duration`, 60 s) apart, so no
second capture ever fires within the cooldown of a prior one. -/
theorem cooldown_exclusivity (fs : List FrameInput) (h : timesSorted fs = true) :
    List.Pairwise (fun a b => a + CAPTURE_COOLDOWN ≤ b)
      (runCaps initialTrackerState fs) :=
  runCaps_pairwise fs initialTrackerState h

/-- Frames for the C1 witness: continuous presence across a capture, the
cooldown expiry, and a second capture. -/
def cooldownDemoFrames : List FrameInput :=
  [⟨0, true⟩, ⟨1, true⟩, ⟨61, true⟩, ⟨62, true⟩, ⟨63, true⟩]

/-- Witness for C1 at a concrete continuously-present frame sequence. -/
theorem cooldown_exclusivity_witness :
    timesSorted cooldownDemoFrames = true ∧
      List.Pairwise (fun a b => a + CAPTURE_COOLDOWN ≤ b)
        (runCaps initialTrackerState cooldownDemoFrames) :=
  ⟨by decide, cooldown_exclusivity cooldownDemoFrames (by decide)⟩

/-! ## C2-C4: dwell, grace and cooldown-expiry behaviour of the tracker -/

/-- The dwell duration the code's consecutive-frame requirement induces at a
fixed sampling stride: the counter reaches `CONSECUTIVE_FRAMES_REQUIRED` at
the frame `(CONSECUTIVE_FRAMES_REQUIRED - 1)` strides after the first
present sample.  The code has no time-based dwell configuration. -/
def effectiveDwell (stride : ℚ) : ℚ :=
  ((CONSECUTIVE_FRAMES_REQUIRED - 1 : ℕ) : ℚ) * stride

/-- A run of `CONSECUTIVE_FRAMES_REQUIRED` present samples starting at `t0`,
sampled every `stride` seconds. -/
def presentRun (t0 stride : ℚ) : List FrameInput :=
  (List.range CONSECUTIVE_FRAMES_REQUIRED).map fun k => ⟨t0 + (k : ℚ) * stride, true⟩

/-- Nine sampled frames at one-second stride, all present: presence held for
exactly eight seconds (the §8 scenario with `dwell_time = 8 s`). -/
def dwellCexFrames : List FrameInput :=
  [⟨0, true⟩, ⟨1, true⟩, ⟨2, true⟩, ⟨3, true⟩, ⟨4, true⟩,
   ⟨5, true⟩, ⟨6, true⟩, ⟨7, true⟩, ⟨8, true⟩]

/-- C2 counterexample: with presence held continuously for exactly 8 seconds
at a 1-second stride (a `dwell_time = 8 s` reading of the claim), the code
emits its single CaptureEvent at elapsed time 1 s, not at the frame where
elapsed time reaches 8 s. -/
theorem dwell_time_cex :
    runCaps initialTrackerState dwellCexFrames = [1] ∧
      ¬ runCaps initialTrackerState dwellCexFrames = [(8 : ℚ)] := by
  have h : runCaps initialTrackerState dwellCexFrames = [1] := by
    norm_num [dwellCexFrames, runCaps, trackerStep, initialTrackerState,
      CAPTURE_COOLDOWN, CONSECUTIVE_FRAMES_REQUIRED]
  refine ⟨h, ?_⟩
  rw [h]
  norm_num

/-- C2 amended: starting from the initial (idle) state, a continuously
present run sampled at stride `stride` produces exactly one CaptureEvent,
emitted at the frame where the consecutive-present count first reaches
`CONSECUTIVE_FRAMES_REQUIRED`, i.e. at elapsed time `effectiveDwell stride`
after the episode start. -/
theorem consecutive_capture_timing (t0 stride : ℚ) :
    runCaps initialTrackerState (presentRun t0 stride) = [t0 + effectiveDwell stride] := by
  have hrange : List.range CONSECUTIVE_FRAMES_REQUIRED = [0, 1] := by decide
  have hrun : presentRun t0 stride = [⟨t0, true⟩, ⟨t0 + stride, true⟩] := by
    simp [presentRun, hrange]
  have h0 : trackerStep initialTrackerState ⟨t0, true⟩ = (⟨1, 0, false⟩, false) :=
    trackerStep_count rfl rfl (by decide)
  have h1 : trackerStep ⟨1, 0, false⟩ ⟨t0 + stride, true⟩ = (⟨0, t0 + stride, true⟩, true) :=
    trackerStep_fire rfl rfl (by decide)
  rw [hrun]
  simp only [runCaps, h0, h1]
  norm_num [effectiveDwell, CONSECUTIVE_FRAMES_REQUIRED]

/-- C3 counterexample: a single-sample absence of one second (shorter than
any positive grace period the spec could intend) resets the dwell progress:
after present-absent the counter is back to 0, not the 1 it held after the
first present sample, and a subsequent capture fires two full samples later
(at t = 3), not at t = 2 as a preserved dwell timer would give. -/
theorem grace_period_cex :
    (runState initialTrackerState [⟨0, true⟩]).consecutive_detections = 1 ∧
      (runState initialTrackerState [⟨0, true⟩, ⟨1, false⟩]).consecutive_detections = 0 ∧
      runCaps initialTrackerState [⟨0, true⟩, ⟨1, false⟩, ⟨2, true⟩, ⟨3, true⟩] = [3] ∧
      ¬ (runState initialTrackerState [⟨0, true⟩, ⟨1, false⟩]).consecutive_detections
          = (runState initialTrackerState [⟨0, true⟩]).consecutive_detections := by
  refine ⟨?_, ?_, ?_, ?_⟩ <;>
    norm_num [runState, runCaps, trackerStep, initialTrackerState,
      CAPTURE_COOLDOWN, CONSECUTIVE_FRAMES_REQUIRED]

/-- C3 amended: outside cooldown, every sampled frame with `present = false`
resets the consecutive-detection counter (the code's only dwell progress) to
zero, whatever the duration of the absence: the tracker has no grace period,
so the next presence always starts a fresh dwell count. -/
theorem absence_resets_dwell (s : TrackerState) (f : FrameInput)
    (hcd : s.in_cooldown = false) (hp : f.present = false) :
    trackerStep s f = (⟨0, s.last_capture_time, false⟩, false) :=
  trackerStep_absent hcd hp

/-- Witness for the amended C3 statement at a mid-dwell concrete state. -/
theorem absence_resets_dwell_witness :
    trackerStep ⟨1, 0, false⟩ ⟨5, false⟩ = (⟨0, 0, false⟩, false) :=
  absence_resets_dwell ⟨1, 0, false⟩ ⟨5, false⟩ rfl rfl

/-- C4 counterexample: on the sampled frame where cooldown expires
(`now - last_capture_time = CAPTURE_COOLDOWN`) with `present = true`, the
code leaves cooldown but zeroes the counter and discards the frame, whereas
evaluating the same frame from the idle state would count it (counter 1).
So the expiry frame is not re-evaluated as IDLE would evaluate it. -/
theorem cooldown_expiry_cex :
    (trackerStep ⟨0, 0, true⟩ ⟨60, true⟩).1.in_cooldown = false ∧
      (trackerStep ⟨0, 0, true⟩ ⟨60, true⟩).2 = false ∧
      (trackerStep ⟨0, 0, true⟩ ⟨60, true⟩).1.consecutive_detections = 0 ∧
      (trackerStep ⟨0, 0, false⟩ ⟨60, true⟩).1.consecutive_detections = 1 ∧
      ¬ (trackerStep ⟨0, 0, true⟩ ⟨60, true⟩).1.consecutive_detections
          = (trackerStep ⟨0, 0, false⟩ ⟨60, true⟩).1.consecutive_detections := by
  refine ⟨?_, ?_, ?_, ?_, ?_⟩ <;>
    norm_num [trackerStep, CAPTURE_COOLDOWN, CONSECUTIVE_FRAMES_REQUIRED]

/-- C4 amended: on a sampled frame in cooldown with
`now - last_capture_time ≥ CAPTURE_COOLDOWN`, the tracker leaves cooldown
but ignores that frame's `present` input entirely: no capture fires, the
consecutive counter is reset to zero, and dwelling can begin only from the
next sampled frame. -/
theorem cooldown_expiry_discards_frame (s : TrackerState) (f : FrameInput)
    (hcd : s.in_cooldown = true)
    (h60 : CAPTURE_COOLDOWN ≤ f.now - s.last_capture_time) :
    trackerStep s f = (⟨0, s.last_capture_time, false⟩, false) :=
  trackerStep_cooldown_expired hcd h60

/-- Witness for the amended C4 statement at the exact expiry instant with a
present frame. -/
theorem cooldown_expiry_discards_frame_witness :
    trackerStep ⟨0, 0, true⟩ ⟨60, true⟩ = (⟨0, 0, false⟩, false) :=
  cooldown_expiry_discards_frame ⟨0, 0, true⟩ ⟨60, true⟩ rfl (by norm_num [CAPTURE_COOLDOWN])

/-! ## Python string and truthiness helpers -/

/-- The empty Python string. -/
def emptyString : String := ""

/-- Python `str.lower()` (ASCII case folding, which covers every string the
pipeline compares). -/
def pyLower (s : String) : String := String.mk (s.data.map Char.toLower)

/-- Character-list substring test: Python's `needle in hay` for strings. -/
def subChars : List Char → List Char → Bool
  | [], _ => true
  | _, [] => false
  | n, c :: cs => (List.isPrefixOf n (c :: cs)) || subChars n cs

/-- Python `needle in hay` on strings. -/
def pyContainsSub (hay needle : String) : Bool := subChars needle.data hay.data

/-- Python truthiness of an `Optional[str]`: `None` and `""` are falsy. -/
def pyTruthyStr : Option String → Bool
  | none => false
  | some s => !(s == emptyString)

/-! ## Dual-pass costume gate (backend/src/costume_detector.py) -/

/-- A detector bounding box as YOLO returns it (float coordinates). -/
structure QBox where
  x1 : ℚ
  y1 : ℚ
  x2 : ℚ
  y2 : ℚ
deriving DecidableEq

/-- A bounding box after Python `map(int, box.xyxy[0])`. -/
structure IBox where
  x1 : ℤ
  y1 : ℤ
  x2 : ℤ
  y2 : ℤ
deriving DecidableEq

/-- Python `int(...)` on a float: truncation toward zero. -/
def pyInt (q : ℚ) : ℤ := if 0 ≤ q then ⌊q⌋ else ⌈q⌉

/-- `map(int, box.xyxy[0])` applied to a raw box. -/
def intBox (b : QBox) : IBox := ⟨pyInt b.x1, pyInt b.y1, pyInt b.x2, pyInt b.y2⟩

/-- One raw YOLO detection: class id, confidence and float box. -/
structure YoloDet where
  cls : ℕ
  conf : ℚ
  box : QBox
deriving DecidableEq

/-- YOLO COCO person class (costume_detector.py line 23). -/
def PERSON_CLASS : ℕ := 0

/-- YOLO classes commonly misassigned to inflatable costumes (line 24). -/
def INFLATABLE_CLASSES : List ℕ := [2, 14, 16, 17]

def strPerson : String := "person"

def strInflatable : String := "inflatable"

def strNoCostume : String := "no costume"

/-- One detection dict built by `detect_people_and_costumes`: the keys set in
costume_detector.py lines 90-105, with the costume keys of lines 141-143
optional (`none` models an absent key). -/
structure Detect where
  confidence : ℚ
  bounding_box : IBox
  detection_type : String
  yolo_class : ℕ
  yolo_class_name : Option String
  costume_classification : Option String
  costume_description : Option String
  costume_confidence : Option ℚ
deriving DecidableEq

/-- A standard person entry (lines 90-95). -/
def mkPersonDet (d : YoloDet) : Detect :=
  ⟨d.conf, intBox d.box, strPerson, d.cls, none, none, none, none⟩

/-- A potential-inflatable entry (lines 99-105); `names` models
`model.names[cls]`. -/
def mkInflatableDet (names : ℕ → String) (d : YoloDet) : Detect :=
  ⟨d.conf, intBox d.box, strInflatable, d.cls, some (names d.cls), none, none, none⟩

/-- PASS 1 (lines 74-105): one sweep over the YOLO boxes, appending
above-threshold person detections to the first list and above-threshold
inflatable-class detections to the second. -/
def pass1 (names : ℕ → String) (dets : List YoloDet) (confidence_threshold : ℚ) :
    List Detect × List Detect :=
  dets.foldl
    (fun acc d =>
      if confidence_threshold < d.conf then
        if d.cls == PERSON_CLASS then (acc.1 ++ [mkPersonDet d], acc.2)
        else if INFLATABLE_CLASSES.contains d.cls then
          (acc.1, acc.2 ++ [mkInflatableDet names d])
        else acc
      else acc)
    ([], [])

/-- Outcome of one classifier call on an inflatable crop: `fail` models any
exception raised inside the per-detection `try` block (lines 117-150);
`ok` carries the `(classification, confidence, description)` triple that
`classify_costume` returned. -/
inductive ClassifyOutcome where
  | fail : ClassifyOutcome
  | ok : Option String → Option ℚ → Option String → ClassifyOutcome
deriving DecidableEq

/-- The `is_valid` acceptance test of costume_detector.py lines 132-136,
with Python truthiness and short-circuiting made explicit. -/
def is_valid_costume (label desc : Option String) : Bool :=
  pyTruthyStr label &&
    !((pyLower (label.getD emptyString) == strPerson) && pyTruthyStr desc &&
      pyContainsSub (pyLower (desc.getD emptyString)) strNoCostume)

/-- Acceptance rule as the specification words it: a label was returned, and
it is not the case that the label case-insensitively equals "person" while
the description contains the substring "no costume" case-insensitively. -/
def spec_accepts (label desc : Option String) : Bool :=
  (match label with
    | none => false
    | some s => !(s == emptyString)) &&
  !((pyLower (label.getD emptyString) == strPerson) &&
    pyContainsSub (pyLower (desc.getD emptyString)) strNoCostume)

/-- Attaching an accepted classifier result to a detection (lines 141-143). -/
def attachClassification (i : Detect) (label : Option String) (conf : Option ℚ)
    (desc : Option String) : Detect :=
  { i with
    costume_classification := label
    costume_description := desc
    costume_confidence := conf }

/-- PASS 2 (lines 112-151): walk the potential inflatables in order; the
`k`-th call to the classifier is `oracle k`.  An exception skips the
detection, an accepted result appends it with classification fields set, a
rejected result drops it. -/
def validateInflatables (oracle : ℕ → ClassifyOutcome) : ℕ → List Detect → List Detect
  | _, [] => []
  | k, i :: rest =>
    match oracle k with
    | ClassifyOutcome.fail => validateInflatables oracle (k + 1) rest
    | ClassifyOutcome.ok label conf desc =>
      if is_valid_costume label desc then
        attachClassification i label conf desc :: validateInflatables oracle (k + 1) rest
      else validateInflatables oracle (k + 1) rest

/-- `detect_people_and_costumes` (costume_detector.py lines 27-152): persons
from pass 1, followed by the validated inflatables appended to them. -/
def detect_people_and_costumes (names : ℕ → String) (dets : List YoloDet)
    (oracle : ℕ → ClassifyOutcome) (confidence_threshold : ℚ) : List Detect :=
  let p := pass1 names dets confidence_threshold
  p.1 ++ validateInflatables oracle 0 p.2

/-- The contribution of the indexed inflatable `ki` to the gate output,
using the code's `is_valid` test. -/
def acceptEntry (oracle : ℕ → ClassifyOutcome) (ki : ℕ × Detect) : Option Detect :=
  match oracle ki.1 with
  | ClassifyOutcome.fail => none
  | ClassifyOutcome.ok label conf desc =>
    if is_valid_costume label desc then
      some (attachClassification ki.2 label conf desc)
    else none

/-- The contribution of the indexed inflatable `ki` to the gate output,
using the specification's acceptance rule. -/
def specAcceptEntry (oracle : ℕ → ClassifyOutcome) (ki : ℕ × Detect) : Option Detect :=
  match oracle ki.1 with
  | ClassifyOutcome.fail => none
  | ClassifyOutcome.ok label conf desc =>
    if spec_accepts label desc then
      some (attachClassification ki.2 label conf desc)
    else none

/-- The code's `is_valid` test coincides with the specification's
acceptance rule on every classifier result. -/
theorem is_valid_eq_spec (label desc : Option String) :
    is_valid_costume label desc = spec_accepts label desc := by
  cases label with
  | none => rfl
  | some s =>
    cases desc with
    | none =>
      have hC : pyContainsSub (pyLower emptyString) strNoCostume = false := by decide
      simp [is_valid_costume, spec_accepts, pyTruthyStr, hC]
    | some t =>
      by_cases ht : t = emptyString
      · subst ht
        have hC : pyContainsSub (pyLower emptyString) strNoCostume = false := by decide
        simp [is_valid_costume, spec_accepts, pyTruthyStr, hC]
      · have hT : (t == emptyString) = false := by
          simp [ht]
        simp [is_valid_costume, spec_accepts, pyTruthyStr, hT, Bool.and_assoc]

/-- Pass 2 is the filterMap of the per-index acceptance over the indexed
inflatable list. -/
theorem validateInflatables_eq (oracle : ℕ → ClassifyOutcome) :
    ∀ (infl : List Detect) (k : ℕ),
      validateInflatables oracle k infl
        = (List.enumFrom k infl).filterMap (acceptEntry oracle) := by
  intro infl
  induction infl with
  | nil => intro k; rfl
  | cons i rest ih =>
    intro k
    simp only [validateInflatables, List.enumFrom, List.filterMap_cons]
    cases h : oracle k with
    | fail => simp [acceptEntry, h, ih]
    | ok label conf desc =>
      by_cases hv : is_valid_costume label desc = true
      · simp [acceptEntry, h, hv, ih]
      · simp [acceptEntry, h, hv, ih]

/-- C5 (dual-pass gate): the gate's output is exactly the pass-1 person
detections followed by those ambiguous detections whose classifier result
satisfies the specification's acceptance rule - label returned, and not
(label is "person" case-insensitively while the description contains
"no costume" case-insensitively) - each returned with its classification
fields pre-populated; rejected or failing ambiguous detections are dropped
from the output entirely.  Moreover the code's `is_valid` test agrees with
the specification's rule on every classifier result. -/
theorem dual_pass_gate_spec (names : ℕ → String) (dets : List YoloDet)
    (oracle : ℕ → ClassifyOutcome) (confidence_threshold : ℚ) :
    detect_people_and_costumes names dets oracle confidence_threshold
        = (pass1 names dets confidence_threshold).1
          ++ (List.enumFrom 0 (pass1 names dets confidence_threshold).2).filterMap
               (specAcceptEntry oracle)
      ∧ ∀ label desc, is_valid_costume label desc = spec_accepts label desc := by
  constructor
  · show (pass1 names dets confidence_threshold).1
        ++ validateInflatables oracle 0 (pass1 names dets confidence_threshold).2 = _
    rw [validateInflatables_eq]
    have hfun : acceptEntry oracle = specAcceptEntry oracle := by
      funext ki
      cases h : oracle ki.1 with
      | fail => simp [acceptEntry, specAcceptEntry, h]
      | ok label conf desc => simp [acceptEntry, specAcceptEntry, h, is_valid_eq_spec]
    rw [hfun]
  · exact is_valid_eq_spec

/-- C6 (per-detection failure isolation): if the classifier call for the
`k`-th ambiguous detection fails, the gate output is still the full
person list followed by every other ambiguous detection resolved exactly by
its own classifier result - the failure removes only index `k` and neither
aborts the batch nor changes any other detection's accept/reject outcome. -/
theorem classifier_failure_isolated (names : ℕ → String) (dets : List YoloDet)
    (oracle : ℕ → ClassifyOutcome) (confidence_threshold : ℚ) (k : ℕ)
    (hk : oracle k = ClassifyOutcome.fail) :
    detect_people_and_costumes names dets oracle confidence_threshold
      = (pass1 names dets confidence_threshold).1
        ++ (List.enumFrom 0 (pass1 names dets confidence_threshold).2).filterMap
             (fun ki => if ki.1 = k then none else acceptEntry oracle ki) := by
  show (pass1 names dets confidence_threshold).1
      ++ validateInflatables oracle 0 (pass1 names dets confidence_threshold).2 = _
  rw [validateInflatables_eq]
  have hfun : (fun ki : ℕ × Detect => if ki.1 = k then none else acceptEntry oracle ki)
      = acceptEntry oracle := by
    funext ki
    by_cases h : ki.1 = k
    · simp [h, acceptEntry, hk]
    · simp [h]
  rw [hfun]

def witGateNames : ℕ → String := fun _ => emptyString

def strWitch : String := "witch"

def strWitchDesc : String := "a witch with a pointed hat"

/-- YOLO output for the C6 witness: one person, two inflatable candidates. -/
def witGateDets : List YoloDet :=
  [⟨0, 9/10, ⟨1, 1, 3, 3⟩⟩, ⟨14, 9/10, ⟨1, 1, 3, 3⟩⟩, ⟨16, 4/5, ⟨2, 2, 4, 4⟩⟩]

/-- Classifier oracle for the C6 witness: the first inflatable call raises,
the second returns a witch costume. -/
def witGateOracle : ℕ → ClassifyOutcome := fun k =>
  if k == 0 then ClassifyOutcome.fail
  else ClassifyOutcome.ok (some strWitch) (some (19/20)) (some strWitchDesc)

/-- Witness for C6 at a concrete batch whose first classifier call fails. -/
theorem classifier_failure_isolated_witness :
    witGateOracle 0 = ClassifyOutcome.fail ∧
      detect_people_and_costumes witGateNames witGateDets witGateOracle (7/10)
        = (pass1 witGateNames witGateDets (7/10)).1
          ++ (List.enumFrom 0 (pass1 witGateNames witGateDets (7/10)).2).filterMap
               (fun ki => if ki.1 = 0 then none else acceptEntry witGateOracle ki) :=
  ⟨rfl, classifier_failure_isolated witGateNames witGateDets witGateOracle (7/10) 0 rfl⟩

/-! ## ROI filtering and the per-frame pipeline (backend/scripts/main.py) -/

/-- ROI bounds (lines 76-79). -/
def ROI_X_MIN : ℚ := 0

def ROI_X_MAX : ℚ := 7/10

def ROI_Y_MIN : ℚ := 0

def ROI_Y_MAX : ℚ := 1

/-- Minimum confidence for person detection (line 69). -/
def CONFIDENCE_THRESHOLD : ℚ := 7/10

/-- `is_in_roi` (lines 86-99): the box center, normalised by the frame
dimensions, must lie in the ROI rectangle (bounds inclusive). -/
def is_in_roi (x1 y1 x2 y2 : ℚ) (frame_width frame_height : ℕ) : Bool :=
  let center_x := (x1 + x2) / 2
  let center_y := (y1 + y2) / 2
  let norm_x := center_x / (frame_width : ℚ)
  let norm_y := center_y / (frame_height : ℚ)
  decide (ROI_X_MIN ≤ norm_x ∧ norm_x ≤ ROI_X_MAX ∧
    ROI_Y_MIN ≤ norm_y ∧ norm_y ≤ ROI_Y_MAX)

/-- One sampled frame with its YOLO detections and dimensions. -/
structure Frame where
  now : ℚ
  frame_width : ℕ
  frame_height : ℕ
  dets : List YoloDet
deriving DecidableEq

/-- The per-detection test of the presence check (lines 196-201): person
class, confidence strictly above threshold, and the raw float box center in
the ROI (`bbox = box.xyxy[0].tolist()`). -/
def keepRaw (d : YoloDet) (w h : ℕ) : Bool :=
  d.cls == 0 && decide (CONFIDENCE_THRESHOLD < d.conf) &&
    is_in_roi d.box.x1 d.box.y1 d.box.x2 d.box.y2 w h

/-- The per-detection test of the subject collection (lines 240-245): same
class and confidence tests, but the ROI test is applied to the
integer-truncated box (`map(int, box.xyxy[0])`). -/
def keepTrunc (d : YoloDet) (w h : ℕ) : Bool :=
  d.cls == 0 && decide (CONFIDENCE_THRESHOLD < d.conf) &&
    is_in_roi ((intBox d.box).x1 : ℚ) ((intBox d.box).y1 : ℚ)
      ((intBox d.box).x2 : ℚ) ((intBox d.box).y2 : ℚ) w h

/-- `people_detected` (lines 192-205): some detection passes the raw test. -/
def peopleDetected (fr : Frame) : Bool :=
  fr.dets.any fun d => keepRaw d fr.frame_width fr.frame_height

/-- One entry of `detected_people` (lines 246-254). -/
structure PersonRec where
  confidence : ℚ
  bounding_box : IBox
deriving DecidableEq

/-- `detected_people` (lines 236-254): every detection passing the
truncated-box test, in detector order. -/
def detectedPeople (fr : Frame) : List PersonRec :=
  fr.dets.filterMap fun d =>
    if keepTrunc d fr.frame_width fr.frame_height then some ⟨d.conf, intBox d.box⟩
    else none

/-- A capture event: the capture timestamp and the frozen subject list. -/
structure CaptureEvent where
  time : ℚ
  subjects : List PersonRec
deriving DecidableEq

/-- One full sampled-frame iteration: compute `people_detected`, advance the
tracker, and on a capture freeze the current frame's `detected_people` as
the event subjects (lines 192-263). -/
def pipelineStep (s : TrackerState) (fr : Frame) : TrackerState × Option CaptureEvent :=
  ((trackerStep s ⟨fr.now, peopleDetected fr⟩).1,
    if (trackerStep s ⟨fr.now, peopleDetected fr⟩).2 then
      some ⟨fr.now, detectedPeople fr⟩
    else none)

theorem keepRaw_eq_true {d : YoloDet} {w h : ℕ} :
    keepRaw d w h = true ↔
      d.cls = 0 ∧ CONFIDENCE_THRESHOLD < d.conf ∧
        is_in_roi d.box.x1 d.box.y1 d.box.x2 d.box.y2 w h = true := by
  simp [keepRaw, and_assoc]

theorem keepTrunc_eq_true {d : YoloDet} {w h : ℕ} :
    keepTrunc d w h = true ↔
      d.cls = 0 ∧ CONFIDENCE_THRESHOLD < d.conf ∧
        is_in_roi ((intBox d.box).x1 : ℚ) ((intBox d.box).y1 : ℚ)
          ((intBox d.box).x2 : ℚ) ((intBox d.box).y2 : ℚ) w h = true := by
  simp [keepTrunc, and_assoc]

/-- C7 counterexample: in frame `cexFrameB`, detection `cexDetOut` has raw
box center `(7.1, 2)`, normalised x `0.71`, outside the ROI (x max `0.7`),
so it never contributes to `present`; but its truncated box `(6,1,7,3)` has
center `(6.5, 2)`, normalised x `0.65`, inside the ROI, so when the other
detection matures the capture it appears in the CaptureEvent's subjects. -/
def cexDetIn : YoloDet := ⟨0, 9/10, ⟨1, 1, 3, 3⟩⟩

def cexDetOut : YoloDet := ⟨0, 4/5, ⟨69/10, 1, 73/10, 3⟩⟩

def cexFrameA : Frame := ⟨0, 10, 10, [cexDetIn]⟩

def cexFrameB : Frame := ⟨1, 10, 10, [cexDetIn, cexDetOut]⟩

theorem roi_keep_cexDetIn_raw : keepRaw cexDetIn 10 10 = true := by
  norm_num [keepRaw, cexDetIn, is_in_roi, ROI_X_MIN, ROI_X_MAX, ROI_Y_MIN, ROI_Y_MAX,
    CONFIDENCE_THRESHOLD]

theorem roi_keep_cexDetIn_trunc : keepTrunc cexDetIn 10 10 = true := by
  norm_num [keepTrunc, cexDetIn, intBox, pyInt, is_in_roi, ROI_X_MIN, ROI_X_MAX,
    ROI_Y_MIN, ROI_Y_MAX, CONFIDENCE_THRESHOLD]

theorem roi_keep_cexDetOut_trunc : keepTrunc cexDetOut 10 10 = true := by
  norm_num [keepTrunc, cexDetOut, intBox, pyInt, is_in_roi, ROI_X_MIN, ROI_X_MAX,
    ROI_Y_MIN, ROI_Y_MAX, CONFIDENCE_THRESHOLD]

theorem roi_intBox_cexDetIn : intBox cexDetIn.box = ⟨1, 1, 3, 3⟩ := by
  norm_num [cexDetIn, intBox, pyInt]

theorem roi_intBox_cexDetOut : intBox cexDetOut.box = ⟨6, 1, 7, 3⟩ := by
  norm_num [cexDetOut, intBox, pyInt]

theorem roi_conf_cexDetIn : cexDetIn.conf = 9/10 := rfl

theorem roi_conf_cexDetOut : cexDetOut.conf = 4/5 := rfl

theorem roi_dets_cexFrameB : cexFrameB.dets = [cexDetIn, cexDetOut] := rfl

theorem roi_dims_cexFrameB : cexFrameB.frame_width = 10 ∧ cexFrameB.frame_height = 10 :=
  ⟨rfl, rfl⟩

theorem roi_subjects_cexFrameB :
    detectedPeople cexFrameB = [⟨9/10, ⟨1, 1, 3, 3⟩⟩, ⟨4/5, ⟨6, 1, 7, 3⟩⟩] := by
  rw [detectedPeople, roi_dets_cexFrameB, roi_dims_cexFrameB.1, roi_dims_cexFrameB.2]
  simp only [List.filterMap_cons, List.filterMap_nil, roi_keep_cexDetIn_trunc,
    roi_keep_cexDetOut_trunc, roi_intBox_cexDetIn, roi_intBox_cexDetOut,
    roi_conf_cexDetIn, roi_conf_cexDetOut, if_true]

/-- C7 counterexample theorem: `cexDetOut`'s raw box center is outside the
configured ROI, yet the CaptureEvent fired on `cexFrameB` carries it in its
subjects list, because the subjects pass is filtered on the truncated box. -/
theorem roi_truncation_cex :
    is_in_roi cexDetOut.box.x1 cexDetOut.box.y1 cexDetOut.box.x2 cexDetOut.box.y2 10 10
        = false ∧
      (pipelineStep (pipelineStep initialTrackerState cexFrameA).1 cexFrameB).2
        = some ⟨1, [⟨9/10, ⟨1, 1, 3, 3⟩⟩, ⟨4/5, ⟨6, 1, 7, 3⟩⟩]⟩ ∧
      (⟨4/5, ⟨6, 1, 7, 3⟩⟩ : PersonRec) ∈ detectedPeople cexFrameB := by
  have hraw : is_in_roi cexDetOut.box.x1 cexDetOut.box.y1 cexDetOut.box.x2 cexDetOut.box.y2
      10 10 = false := by
    norm_num [cexDetOut, is_in_roi, ROI_X_MIN, ROI_X_MAX, ROI_Y_MIN, ROI_Y_MAX]
  have hpA : peopleDetected cexFrameA = true := by
    simp [peopleDetected, cexFrameA, roi_keep_cexDetIn_raw]
  have hpB : peopleDetected cexFrameB = true := by
    simp [peopleDetected, cexFrameB, roi_keep_cexDetIn_raw]
  have h1 : trackerStep initialTrackerState ⟨0, true⟩ = (⟨1, 0, false⟩, false) :=
    trackerStep_count rfl rfl (by decide)
  have h2 : trackerStep ⟨1, 0, false⟩ ⟨1, true⟩ = (⟨0, 1, true⟩, true) :=
    trackerStep_fire rfl rfl (by decide)
  have hnowA : cexFrameA.now = 0 := rfl
  have hnowB : cexFrameB.now = 1 := rfl
  have hA : (pipelineStep initialTrackerState cexFrameA).1 = ⟨1, 0, false⟩ := by
    simp only [pipelineStep, hpA, hnowA, h1]
  refine ⟨hraw, ?_, ?_⟩
  · rw [hA]
    simp only [pipelineStep, hpB, hnowB, h2, roi_subjects_cexFrameB, if_true]
  · rw [roi_subjects_cexFrameB]
    simp

/-- C7 amended: `present` holds exactly when some detection has person
class, confidence above threshold and raw box center in the ROI (so a
detection with raw center outside the ROI never contributes to `present`);
the subjects of a CaptureEvent are exactly the detections of the firing
frame whose class and confidence qualify and whose integer-truncated box
center is in the ROI - so the two passes filter by the center of the box
they each carry, and a detection whose raw center is outside the ROI can
still appear as a subject when truncation moves its center inside. -/
theorem roi_filter_characterization :
    (∀ fr : Frame, peopleDetected fr = true ↔
        ∃ d ∈ fr.dets, d.cls = 0 ∧ CONFIDENCE_THRESHOLD < d.conf ∧
          is_in_roi d.box.x1 d.box.y1 d.box.x2 d.box.y2 fr.frame_width fr.frame_height
            = true) ∧
    (∀ (fr : Frame) (p : PersonRec), p ∈ detectedPeople fr ↔
        ∃ d ∈ fr.dets, d.cls = 0 ∧ CONFIDENCE_THRESHOLD < d.conf ∧
          is_in_roi ((intBox d.box).x1 : ℚ) ((intBox d.box).y1 : ℚ)
              ((intBox d.box).x2 : ℚ) ((intBox d.box).y2 : ℚ)
              fr.frame_width fr.frame_height = true ∧
          p = ⟨d.conf, intBox d.box⟩) ∧
    (∀ (s : TrackerState) (fr : Frame) (ev : CaptureEvent),
        (pipelineStep s fr).2 = some ev →
          ev.time = fr.now ∧ ev.subjects = detectedPeople fr) := by
  refine ⟨?_, ?_, ?_⟩
  · intro fr
    rw [peopleDetected, List.any_eq_true]
    constructor
    · rintro ⟨d, hd, hkeep⟩
      exact ⟨d, hd, keepRaw_eq_true.mp hkeep⟩
    · rintro ⟨d, hd, hprops⟩
      exact ⟨d, hd, keepRaw_eq_true.mpr hprops⟩
  · intro fr p
    rw [detectedPeople, List.mem_filterMap]
    constructor
    · rintro ⟨d, hd, hsome⟩
      by_cases hk : keepTrunc d fr.frame_width fr.frame_height = true
      · rw [if_pos hk] at hsome
        obtain ⟨h1, h2, h3⟩ := keepTrunc_eq_true.mp hk
        exact ⟨d, hd, h1, h2, h3, (Option.some_inj.mp hsome).symm⟩
      · rw [if_neg hk] at hsome
        exact absurd hsome (by simp)
    · rintro ⟨d, hd, h1, h2, h3, rfl⟩
      refine ⟨d, hd, ?_⟩
      rw [if_pos (keepTrunc_eq_true.mpr ⟨h1, h2, h3⟩)]
  · intro s fr ev hev
    rw [pipelineStep] at hev
    by_cases hf : (trackerStep s ⟨fr.now, peopleDetected fr⟩).2 = true
    · simp only [hf, if_pos] at hev
      obtain rfl := (Option.some_inj.mp hev).symm
      exact ⟨rfl, rfl⟩
    · simp only [hf] at hev
      simp at hev

/-- Witness for the amended C7 statement: the event fired on `cexFrameB`
carries exactly that frame's `detected_people`. -/
theorem roi_filter_characterization_witness :
    ((⟨0, 1, true⟩, some ⟨1, detectedPeople cexFrameB⟩) :
        TrackerState × Option CaptureEvent).2 = some ⟨1, detectedPeople cexFrameB⟩ ∧
      (⟨1, detectedPeople cexFrameB⟩ : CaptureEvent).time = cexFrameB.now ∧
      (⟨1, detectedPeople cexFrameB⟩ : CaptureEvent).subjects = detectedPeople cexFrameB := by
  refine ⟨rfl, ?_⟩
  have hpB : peopleDetected cexFrameB = true := by
    simp [peopleDetected, cexFrameB, roi_keep_cexDetIn_raw]
  have h2 : trackerStep ⟨1, 0, false⟩ ⟨1, true⟩ = (⟨0, 1, true⟩, true) :=
    trackerStep_fire rfl rfl (by decide)
  have hnowB : cexFrameB.now = 1 := rfl
  have hev : (pipelineStep ⟨1, 0, false⟩ cexFrameB).2 = some ⟨1, detectedPeople cexFrameB⟩ := by
    simp only [pipelineStep, hpB, hnowB, h2, if_true]
  exact (roi_filter_characterization.2.2 ⟨1, 0, false⟩ cexFrameB
    ⟨1, detectedPeople cexFrameB⟩ hev)

/-! ## Upload fan-out and local cleanup (backend/scripts/main.py, lines 347-368) -/

/-- Result of the post-capture fan-out: per-person upload outcomes
(`none` when no backend client is configured, otherwise whether
`save_detection` returned without raising), and whether the local image
file was removed. -/
structure FanoutOutcome where
  upload_results : List (Option Bool)
  file_deleted : Bool
deriving DecidableEq

/-- The upload loop (lines 347-360): for each detected person, if a backend
client is configured, attempt `save_detection`; an exception is caught and
logged, and the loop continues.  `saveOk k` tells whether the `k`-th call
succeeds. -/
def uploadResults (client : Bool) (saveOk : ℕ → Bool) : ℕ → List PersonRec → List (Option Bool)
  | _, [] => []
  | k, _ :: rest =>
    (if client then some (saveOk k) else none) :: uploadResults client saveOk (k + 1) rest

/-- The fan-out of lines 347-368: run the upload loop, then the cleanup
block (lines 362-368), which removes the local file exactly when a backend
client is configured, the file exists, and `os.remove` does not raise
(`removeOk`); a raise is caught and logged. -/
def upload_and_cleanup (client : Bool) (saveOk : ℕ → Bool) (persons : List PersonRec)
    (fileOnDisk removeOk : Bool) : FanoutOutcome :=
  { upload_results := uploadResults client saveOk 0 persons
    file_deleted := client && fileOnDisk && removeOk }

/-- A concrete subject for the C8 counterexample. -/
def cexPerson : PersonRec := ⟨9/10, ⟨1, 1, 3, 3⟩⟩

/-- C8 counterexample: with a backend client configured, a single subject
whose upload fails, the file on disk and `os.remove` succeeding, the local
image is deleted even though the backend store rejected the upload - so
deletion is not conditioned on the upload having been accepted, refuting
the claimed "deleted iff the upload step was accepted cleanly". -/
theorem cleanup_despite_failure_cex :
    (upload_and_cleanup true (fun _ => false) [cexPerson] true true).upload_results
        = [some false] ∧
      (upload_and_cleanup true (fun _ => false) [cexPerson] true true).file_deleted = true ∧
      ¬ ((upload_and_cleanup true (fun _ => false) [cexPerson] true true).file_deleted = true
          ↔ ((upload_and_cleanup true (fun _ => false) [cexPerson] true true).upload_results.any
              (fun r => r == some true)) = true) := by
  refine ⟨rfl, rfl, ?_⟩
  intro h
  have := h.mp rfl
  simp [upload_and_cleanup, uploadResults] at this

/-- C8 amended: after all subjects are processed, the local image is deleted
iff a backend client is configured, the file still exists, and the remove
call succeeds - entirely independent of the upload outcomes, so on backend
store failure the image is still cleaned up (not retained). -/
theorem cleanup_condition (client : Bool) (saveOk saveOk' : ℕ → Bool)
    (persons : List PersonRec) (fileOnDisk removeOk : Bool) :
    (upload_and_cleanup client saveOk persons fileOnDisk removeOk).file_deleted
        = (client && fileOnDisk && removeOk) ∧
      (upload_and_cleanup client saveOk persons fileOnDisk removeOk).file_deleted
        = (upload_and_cleanup client saveOk' persons fileOnDisk removeOk).file_deleted :=
  ⟨rfl, rfl⟩

/-! ## Face blurring (backend/src/utils/face_blur.py) -/

/-- One detected face rectangle `(x, y, w, h)` as the cascades return it
(after the right-profile flip correction); Python ints. -/
structure Face where
  x : ℤ
  y : ℤ
  w : ℤ
  h : ℤ
deriving DecidableEq

/-- The sort key `f[2] * f[3]` of `_remove_duplicate_faces` (line 152). -/
def faceArea (f : Face) : ℤ := f.w * f.h

/-- Stable descending insertion by area: places `f` before the first kept
face of strictly smaller area, matching Python's stable
`sorted(key=area, reverse=True)`. -/
def insertByAreaDesc (f : Face) : List Face → List Face
  | [] => [f]
  | g :: gs => if faceArea g < faceArea f then f :: g :: gs else g :: insertByAreaDesc f gs

/-- `sorted(faces_list, key=lambda f: f[2]*f[3], reverse=True)` (line 152):
stable descending sort by area. -/
def sortByAreaDesc (faces : List Face) : List Face :=
  faces.foldl (fun acc f => insertByAreaDesc f acc) []

/-- The IoU test of lines 160-169: intersection over union of the candidate
`f` against a kept face `g`, strictly above `0.3`. -/
def iouGT03 (f g : Face) : Bool :=
  let x_overlap := max 0 (min (f.x + f.w) (g.x + g.w) - max f.x g.x)
  let y_overlap := max 0 (min (f.y + f.h) (g.y + g.h) - max f.y g.y)
  let overlap_area := x_overlap * y_overlap
  let area1 := f.w * f.h
  let area2 := g.w * g.h
  let denom := area1 + area2 - overlap_area
  let iou : ℚ := if 0 < denom then (overlap_area : ℚ) / (denom : ℚ) else 0
  decide (3/10 < iou)

/-- The duplicate-filter loop of lines 154-173: keep a face unless it
overlaps a kept face with IoU above `0.3`. -/
def dedupLoop : List Face → List Face → List Face
  | filtered, [] => filtered
  | filtered, face :: rest =>
    if filtered.any fun kept => iouGT03 face kept then dedupLoop filtered rest
    else dedupLoop (filtered ++ [face]) rest

/-- `_remove_duplicate_faces` (lines 135-175): sort by area descending, then
filter overlapping duplicates. -/
def remove_duplicate_faces (faces : List Face) : List Face :=
  dedupLoop [] (sortByAreaDesc faces)

theorem mem_insertByAreaDesc {f a : Face} :
    ∀ {l : List Face}, a ∈ insertByAreaDesc f l → a = f ∨ a ∈ l := by
  intro l
  induction l with
  | nil =>
    intro h
    rw [insertByAreaDesc] at h
    exact Or.inl (List.mem_singleton.mp h)
  | cons g gs ih =>
    intro h
    rw [insertByAreaDesc] at h
    by_cases hlt : faceArea g < faceArea f
    · rw [if_pos hlt] at h
      rcases List.mem_cons.mp h with rfl | h2
      · exact Or.inl rfl
      · exact Or.inr h2
    · rw [if_neg hlt] at h
      rcases List.mem_cons.mp h with rfl | h2
      · exact Or.inr (List.mem_cons_self _ _)
      · rcases ih h2 with h3 | h3
        · exact Or.inl h3
        · exact Or.inr (List.mem_cons_of_mem _ h3)

theorem mem_sortByAreaDesc_aux :
    ∀ (l acc : List Face) (a : Face),
      a ∈ l.foldl (fun acc f => insertByAreaDesc f acc) acc → a ∈ acc ∨ a ∈ l := by
  intro l
  induction l with
  | nil => intro acc a h; exact Or.inl h
  | cons f fs ih =>
    intro acc a h
    rw [List.foldl_cons] at h
    rcases ih (insertByAreaDesc f acc) a h with h1 | h1
    · rcases mem_insertByAreaDesc h1 with rfl | h2
      · exact Or.inr (List.mem_cons_self _ _)
      · exact Or.inl h2
    · exact Or.inr (List.mem_cons_of_mem _ h1)

theorem mem_sortByAreaDesc {l : List Face} {a : Face} (h : a ∈ sortByAreaDesc l) :
    a ∈ l := by
  rcases mem_sortByAreaDesc_aux l [] a h with h1 | h1
  · simp at h1
  · exact h1

theorem mem_dedupLoop :
    ∀ (l acc : List Face) (a : Face), a ∈ dedupLoop acc l → a ∈ acc ∨ a ∈ l := by
  intro l
  induction l with
  | nil => intro acc a h; exact Or.inl h
  | cons f fs ih =>
    intro acc a h
    rw [dedupLoop] at h
    by_cases hc : (acc.any fun kept => iouGT03 f kept) = true
    · rw [if_pos hc] at h
      rcases ih acc a h with h1 | h1
      · exact Or.inl h1
      · exact Or.inr (List.mem_cons_of_mem _ h1)
    · rw [if_neg hc] at h
      rcases ih (acc ++ [f]) a h with h1 | h1
      · rcases List.mem_append.mp h1 with h2 | h2
        · exact Or.inl h2
        · rw [List.mem_singleton.mp h2]
          exact Or.inr (List.mem_cons_self _ _)
      · exact Or.inr (List.mem_cons_of_mem _ h1)

theorem mem_remove_duplicate_faces {faces : List Face} {a : Face}
    (h : a ∈ remove_duplicate_faces faces) : a ∈ faces := by
  rw [remove_duplicate_faces] at h
  rcases mem_dedupLoop _ [] a h with h1 | h1
  · simp at h1
  · exact mem_sortByAreaDesc h1

/-- An image: dimensions and a pixel map (pixel type abstract). -/
structure Img (α : Type) where
  height : ℕ
  width : ℕ
  pix : ℕ → ℕ → α

/-- The padded face rectangle clamped to the image bounds (lines 110-118):
`pad = int(w * padding)`, `x1 = max(0, x - pad_w)`,
`x2 = min(width, x + w + pad_w)`, and likewise vertically. -/
structure Rect where
  x1 : ℕ
  y1 : ℕ
  x2 : ℕ
  y2 : ℕ
deriving DecidableEq

def paddedClampedRect (imgW imgH : ℕ) (padding : ℚ) (f : Face) : Rect :=
  let pad_w := pyInt ((f.w : ℚ) * padding)
  let pad_h := pyInt ((f.h : ℚ) * padding)
  ⟨(max 0 (f.x - pad_w)).toNat, (max 0 (f.y - pad_h)).toNat,
    (min (imgW : ℤ) (f.x + f.w + pad_w)).toNat, (min (imgH : ℤ) (f.y + f.h + pad_h)).toNat⟩

/-- Membership of a pixel coordinate in the half-open slice
`[y1:y2, x1:x2]`. -/
def inRect (r : Rect) (i j : ℕ) : Prop :=
  r.y1 ≤ i ∧ i < r.y2 ∧ r.x1 ≤ j ∧ j < r.x2

instance (r : Rect) (i j : ℕ) : Decidable (inRect r i j) := by
  unfold inRect
  infer_instance

/-- Blurring one face (loop body, lines 109-131): extract the padded
clamped region, apply the external Gaussian blur (`blurOp`, given the
region dimensions and content), and write the result back over exactly
that region. -/
def applyFaceBlur {α : Type} (blurOp : ℕ → ℕ → (ℕ → ℕ → α) → (ℕ → ℕ → α))
    (padding : ℚ) (img : Img α) (f : Face) : Img α :=
  let r := paddedClampedRect img.width img.height padding f
  let region := fun i j => img.pix (r.y1 + i) (r.x1 + j)
  let blurred := blurOp (r.y2 - r.y1) (r.x2 - r.x1) region
  { img with
    pix := fun i j => if inRect r i j then blurred (i - r.y1) (j - r.x1) else img.pix i j }

/-- `FaceBlurrer.blur_faces` (lines 42-133) with the external cascade calls
modelled by the input face list `all_faces` (frontal plus corrected profile
detections) and `cv2.GaussianBlur` by `blurOp`: copy the image, deduplicate
the detections, blur each kept face region, and return the new image with
the number of blurred faces. -/
def blur_faces {α : Type} (blurOp : ℕ → ℕ → (ℕ → ℕ → α) → (ℕ → ℕ → α))
    (img : Img α) (padding : ℚ) (all_faces : List Face) : Img α × ℕ :=
  let faces := remove_duplicate_faces all_faces
  (faces.foldl (applyFaceBlur blurOp padding) img, faces.length)

theorem applyFaceBlur_height {α : Type} (blurOp : ℕ → ℕ → (ℕ → ℕ → α) → (ℕ → ℕ → α))
    (padding : ℚ) (img : Img α) (f : Face) :
    (applyFaceBlur blurOp padding img f).height = img.height := rfl

theorem applyFaceBlur_width {α : Type} (blurOp : ℕ → ℕ → (ℕ → ℕ → α) → (ℕ → ℕ → α))
    (padding : ℚ) (img : Img α) (f : Face) :
    (applyFaceBlur blurOp padding img f).width = img.width := rfl

theorem applyFaceBlur_outside {α : Type} (blurOp : ℕ → ℕ → (ℕ → ℕ → α) → (ℕ → ℕ → α))
    (padding : ℚ) (img : Img α) (f : Face) (i j : ℕ)
    (h : ¬ inRect (paddedClampedRect img.width img.height padding f) i j) :
    (applyFaceBlur blurOp padding img f).pix i j = img.pix i j := by
  simp only [applyFaceBlur]
  rw [if_neg h]

theorem foldl_blur_dims {α : Type} (blurOp : ℕ → ℕ → (ℕ → ℕ → α) → (ℕ → ℕ → α))
    (padding : ℚ) :
    ∀ (faces : List Face) (img : Img α),
      (faces.foldl (applyFaceBlur blurOp padding) img).height = img.height ∧
        (faces.foldl (applyFaceBlur blurOp padding) img).width = img.width := by
  intro faces
  induction faces with
  | nil => intro img; exact ⟨rfl, rfl⟩
  | cons f fs ih =>
    intro img
    rw [List.foldl_cons]
    exact (ih (applyFaceBlur blurOp padding img f))

theorem foldl_blur_outside {α : Type} (blurOp : ℕ → ℕ → (ℕ → ℕ → α) → (ℕ → ℕ → α))
    (padding : ℚ) :
    ∀ (faces : List Face) (img : Img α) (i j : ℕ),
      (∀ f ∈ faces, ¬ inRect (paddedClampedRect img.width img.height padding f) i j) →
      (faces.foldl (applyFaceBlur blurOp padding) img).pix i j = img.pix i j := by
  intro faces
  induction faces with
  | nil => intro img i j _; rfl
  | cons f fs ih =>
    intro img i j h
    rw [List.foldl_cons]
    have hstep : (applyFaceBlur blurOp padding img f).pix i j = img.pix i j :=
      applyFaceBlur_outside blurOp padding img f i j (h f (List.mem_cons_self _ _))
    have hrest : (fs.foldl (applyFaceBlur blurOp padding)
        (applyFaceBlur blurOp padding img f)).pix i j
        = (applyFaceBlur blurOp padding img f).pix i j := by
      apply ih
      intro g hg
      rw [applyFaceBlur_width, applyFaceBlur_height]
      exact h g (List.mem_cons_of_mem _ hg)
    rw [hrest, hstep]

theorem paddedClampedRect_bounds (imgW imgH : ℕ) (padding : ℚ) (f : Face) :
    (paddedClampedRect imgW imgH padding f).x2 ≤ imgW ∧
      (paddedClampedRect imgW imgH padding f).y2 ≤ imgH := by
  simp only [paddedClampedRect]
  omega

/-- C9 (frame effect of `blur_faces`): the returned image has the input's
dimensions; every padded face rectangle is clamped inside the image bounds
(so no out-of-range index is ever formed); and every pixel outside all
padded clamped rectangles of the detected faces is returned unchanged.  The
model is pure: the input image is a value and cannot be mutated, matching
the `image.copy()` on line 106. -/
theorem blur_faces_frame_effect {α : Type} (blurOp : ℕ → ℕ → (ℕ → ℕ → α) → (ℕ → ℕ → α))
    (img : Img α) (padding : ℚ) (all_faces : List Face) :
    (blur_faces blurOp img padding all_faces).1.height = img.height ∧
      (blur_faces blurOp img padding all_faces).1.width = img.width ∧
      (∀ f : Face, (paddedClampedRect img.width img.height padding f).x2 ≤ img.width ∧
        (paddedClampedRect img.width img.height padding f).y2 ≤ img.height) ∧
      (∀ i j : ℕ,
        (∀ f ∈ all_faces, ¬ inRect (paddedClampedRect img.width img.height padding f) i j) →
        (blur_faces blurOp img padding all_faces).1.pix i j = img.pix i j) := by
  refine ⟨(foldl_blur_dims blurOp padding _ img).1, (foldl_blur_dims blurOp padding _ img).2,
    fun f => paddedClampedRect_bounds img.width img.height padding f, ?_⟩
  intro i j h
  apply foldl_blur_outside
  intro f hf
  exact h f (mem_remove_duplicate_faces hf)

/-- Concrete 2 by 2 image for the C9 witness. -/
def imgW4 : Img ℤ := ⟨2, 2, fun i j => 10 * (i : ℤ) + (j : ℤ)⟩

/-- A blur oracle that zeroes its region, standing in for cv2. -/
def blurOpW : ℕ → ℕ → (ℕ → ℕ → ℤ) → (ℕ → ℕ → ℤ) := fun _ _ _ => fun _ _ => 0

def facesW : List Face := [⟨0, 0, 1, 1⟩]

theorem rectW : paddedClampedRect 2 2 0 ⟨0, 0, 1, 1⟩ = ⟨0, 0, 1, 1⟩ := by
  norm_num [paddedClampedRect, pyInt]

/-- Witness for C9: pixel `(1, 1)` lies outside the single padded face
rectangle and is returned unchanged (value `11`). -/
theorem blur_faces_frame_effect_witness :
    (blur_faces blurOpW imgW4 0 facesW).1.pix 1 1 = imgW4.pix 1 1 ∧
      imgW4.pix 1 1 = 11 := by
  have hforall : ∀ f ∈ facesW,
      ¬ inRect (paddedClampedRect imgW4.width imgW4.height 0 f) 1 1 := by
    intro f hf
    rw [List.mem_singleton.mp hf]
    rw [show imgW4.width = 2 from rfl, show imgW4.height = 2 from rfl, rectW]
    norm_num [inRect]
  exact ⟨(blur_faces_frame_effect blurOpW imgW4 0 facesW).2.2.2 1 1 hforall, rfl⟩

/-! ## Baseten client classify_costume (backend/src/clients/baseten_client.py) -/

/-- A JSON value, the shape of parsed response bodies. -/
inductive JsonVal where
  | null : JsonVal
  | bool : Bool → JsonVal
  | num : ℚ → JsonVal
  | str : String → JsonVal
  | arr : List JsonVal → JsonVal
  | obj : List (String × JsonVal) → JsonVal

def keyChoices : String := "choices"

def keyMessage : String := "message"

def keyContent : String := "content"

def keyClassification : String := "classification"

def keyConfidence : String := "confidence"

def keyDescription : String := "description"

def strUnknown : String := "unknown"

def fenceJson : String := "```json"

def fence3 : String := "```"

def delimEnd : String := "<end_of_turn>"

def delimNLFence : String := "\n```"

def delimFenceNL : String := "```\n"

/-- First value bound to a key in a JSON object. -/
def jsonLookup : List (String × JsonVal) → String → Option JsonVal
  | [], _ => none
  | (k, v) :: rest, key => if k == key then some v else jsonLookup rest key

/-- Python `key in value`: key membership for dicts, element equality for
lists, substring test for strings; `TypeError` otherwise. -/
def pyIn (v : JsonVal) (key : String) : Except Unit Bool :=
  match v with
  | JsonVal.obj l => Except.ok ((jsonLookup l key).isSome)
  | JsonVal.arr l =>
    Except.ok (l.any fun x =>
      match x with
      | JsonVal.str s => s == key
      | _ => false)
  | JsonVal.str s => Except.ok (pyContainsSub s key)
  | _ => Except.error ()

/-- Python `value[key]` with a string key: dict lookup (`KeyError` when
absent), `TypeError` on any other type. -/
def pySubscriptKey (v : JsonVal) (key : String) : Except Unit JsonVal :=
  match v with
  | JsonVal.obj l =>
    match jsonLookup l key with
    | some x => Except.ok x
    | none => Except.error ()
  | _ => Except.error ()

/-- Python `len(value)`: `TypeError` for null, bools and numbers. -/
def pyLen (v : JsonVal) : Except Unit ℕ :=
  match v with
  | JsonVal.arr l => Except.ok l.length
  | JsonVal.obj l => Except.ok l.length
  | JsonVal.str s => Except.ok s.data.length
  | _ => Except.error ()

/-- Python `value[0]`: list head (`IndexError` on empty), first character of
a string, error otherwise (including `KeyError` for dicts without key 0). -/
def pyIndexZero (v : JsonVal) : Except Unit JsonVal :=
  match v with
  | JsonVal.arr [] => Except.error ()
  | JsonVal.arr (x :: _) => Except.ok x
  | JsonVal.str s =>
    match s.data with
    | [] => Except.error ()
    | c :: _ => Except.ok (JsonVal.str (String.mk [c]))
  | _ => Except.error ()

/-- Python `value.get(key, default)`: only dicts have `.get`
(`AttributeError` otherwise). -/
def pyGetDefault (v : JsonVal) (key : String) (default : JsonVal) : Except Unit JsonVal :=
  match v with
  | JsonVal.obj l => Except.ok ((jsonLookup l key).getD default)
  | _ => Except.error ()

/-- Python truthiness of a JSON value. -/
def pyTruthyJson : JsonVal → Bool
  | JsonVal.null => false
  | JsonVal.bool b => b
  | JsonVal.num q => !(q == 0)
  | JsonVal.str s => !(s == emptyString)
  | JsonVal.arr l => !l.isEmpty
  | JsonVal.obj l => !l.isEmpty

/-- Calling a `str` method on a non-string raises `AttributeError`. -/
def pyAsString (v : JsonVal) : Except Unit String :=
  match v with
  | JsonVal.str s => Except.ok s
  | _ => Except.error ()

/-- Python `float(value)`: numbers pass through, booleans become 0 or 1,
everything else is modelled as a raise.  (CPython also parses numeric
strings; no claim here depends on that coercion, so a string argument is
conservatively modelled as a failure, which the enclosing handler turns
into the `(None, None, None)` triple either way.) -/
def pyFloat (v : JsonVal) : Except Unit ℚ :=
  match v with
  | JsonVal.num q => Except.ok q
  | JsonVal.bool b => Except.ok (if b then 1 else 0)
  | _ => Except.error ()

/-- Python whitespace for `str.strip()`. -/
def pyIsSpace (c : Char) : Bool :=
  c == ' ' || c == '\t' || c == '\n' || c == '\r' || c == '\x0b' || c == '\x0c'

/-- Python `str.strip()`. -/
def pyStrip (s : String) : String :=
  String.mk (((s.data.dropWhile pyIsSpace).reverse.dropWhile pyIsSpace).reverse)

/-- Python `str.startswith(p)`. -/
def strStarts (s p : String) : Bool := List.isPrefixOf p.data s.data

/-- Python `s[n:]` on strings. -/
def strDrop (s : String) (n : ℕ) : String := String.mk (s.data.drop n)

/-- The prefix of a character list before the first occurrence of a
(nonempty) delimiter: Python `s.split(delim)[0]`. -/
def takeUntilSub (delim : List Char) : List Char → List Char
  | [] => []
  | c :: cs => if List.isPrefixOf delim (c :: cs) then [] else c :: takeUntilSub delim cs

def pySplitFirst (s delim : String) : String := String.mk (takeUntilSub delim.data s.data)

/-- The delimiter cleanup loop of baseten_client.py lines 155-157, applied
in the listed order to the current content. -/
def stripDelimiters (s : String) : String :=
  let s1 := if pyContainsSub s fence3 then pySplitFirst s fence3 else s
  let s2 := if pyContainsSub s1 delimEnd then pySplitFirst s1 delimEnd else s1
  let s3 := if pyContainsSub s2 delimNLFence then pySplitFirst s2 delimNLFence else s2
  let s4 := if pyContainsSub s3 delimFenceNL then pySplitFirst s3 delimFenceNL else s3
  s4

/-- Outcome of `self.session.post(...)`: either the request raises
(`requests.exceptions.RequestException`, covering connection errors and
timeouts), or a response arrives with an HTTP status and a body;
`none` as body means `response.json()` cannot parse it and raises. -/
inductive HttpResult where
  | raiseRequest : HttpResult
  | response : ℕ → Option JsonVal → HttpResult

/-- The `try` body of `classify_costume` (baseten_client.py lines 85-168),
with the HTTP call abstracted by `resp` and `json.loads` by `parseJson`.
`raise_for_status` raises exactly for statuses in `[400, 600)`.  An
`Except.error` is a raised exception; `Except.ok` carries the returned
triple, whose first and last components are the raw JSON values Python
would return. -/
def classify_costume_body (parseJson : String → Option JsonVal) (resp : HttpResult) :
    Except Unit (Option JsonVal × Option ℚ × Option JsonVal) :=
  match resp with
  | HttpResult.raiseRequest => Except.error ()
  | HttpResult.response status body =>
    if 400 ≤ status ∧ status < 600 then Except.error ()
    else
      match body with
      | none => Except.error ()
      | some result => do
        let hasKey ← pyIn result keyChoices
        let lenPos ←
          if hasKey then do
            let choicesV ← pySubscriptKey result keyChoices
            let n ← pyLen choicesV
            pure (decide (0 < n))
          else pure false
        if lenPos then do
          let choicesV ← pySubscriptKey result keyChoices
          let firstV ← pyIndexZero choicesV
          let messageV ← pyGetDefault firstV keyMessage (JsonVal.obj [])
          let contentV ← pyGetDefault messageV keyContent (JsonVal.str emptyString)
          if pyTruthyJson contentV = false then pure (none, none, none)
          else do
            let content0 ← pyAsString contentV
            let content1 := pyStrip content0
            let content2 := if strStarts content1 fenceJson then strDrop content1 7 else content1
            let content3 := if strStarts content2 fence3 then strDrop content2 3 else content2
            let content4 := stripDelimiters content3
            let content5 := pyStrip content4
            match parseJson content5 with
            | none => Except.error ()
            | some parsed => do
              let cls ← pyGetDefault parsed keyClassification (JsonVal.str strUnknown)
              let confV ← pyGetDefault parsed keyConfidence (JsonVal.num 0)
              let conf ← pyFloat confV
              let desc ← pyGetDefault parsed keyDescription (JsonVal.str emptyString)
              pure (some cls, some conf, some desc)
        else pure (none, none, none)

/-- `classify_costume` with its three `except` handlers (lines 170-179):
every raised exception is caught and turned into `(None, None, None)`. -/
def classify_costume (parseJson : String → Option JsonVal) (resp : HttpResult) :
    Option JsonVal × Option ℚ × Option JsonVal :=
  match classify_costume_body parseJson resp with
  | Except.ok t => t
  | Except.error _ => (none, none, none)

/-- C10 amended: `classify_costume` never propagates an exception - every
raised exception inside the body yields `(None, None, None)`, as does any
request error, any 4xx or 5xx status, and any unparseable response body;
every execution either returns `(None, None, None)` or the triple the body
computed.  (A 3xx status is not raised by `raise_for_status`, so "non-2xx"
in general does not force the `None` triple; see the counterexample.) -/
theorem classify_costume_failure_to_none (parseJson : String → Option JsonVal)
    (resp : HttpResult) :
    (∀ e : Unit, classify_costume_body parseJson resp = Except.error e →
        classify_costume parseJson resp = (none, none, none)) ∧
      (resp = HttpResult.raiseRequest →
        classify_costume parseJson resp = (none, none, none)) ∧
      (∀ status body, resp = HttpResult.response status body → 400 ≤ status → status < 600 →
        classify_costume parseJson resp = (none, none, none)) ∧
      (∀ status, resp = HttpResult.response status none →
        classify_costume parseJson resp = (none, none, none)) ∧
      (classify_costume parseJson resp = (none, none, none) ∨
        ∃ t, classify_costume_body parseJson resp = Except.ok t ∧
          classify_costume parseJson resp = t) := by
  refine ⟨?_, ?_, ?_, ?_, ?_⟩
  · intro e h
    simp [classify_costume, h]
  · intro h
    subst h
    rfl
  · intro status body h h4 h6
    subst h
    have hbody : classify_costume_body parseJson (HttpResult.response status body)
        = Except.error () := by
      simp [classify_costume_body, h4, h6]
    simp [classify_costume, hbody]
  · intro status h
    subst h
    have hbody : classify_costume_body parseJson (HttpResult.response status none)
        = Except.error () := by
      by_cases hc : 400 ≤ status ∧ status < 600
      · simp [classify_costume_body, hc]
      · simp [classify_costume_body, hc]
    simp [classify_costume, hbody]
  · cases hb : classify_costume_body parseJson resp with
    | error e => exact Or.inl (by simp [classify_costume, hb])
    | ok t => exact Or.inr ⟨t, rfl, by simp [classify_costume, hb]⟩

def parseJsonNoneW : String → Option JsonVal := fun _ => none

/-- Witness for the amended C10 statement: a raised request turns into the
`(None, None, None)` triple. -/
theorem classify_costume_failure_to_none_witness :
    classify_costume parseJsonNoneW HttpResult.raiseRequest = (none, none, none) :=
  (classify_costume_failure_to_none parseJsonNoneW HttpResult.raiseRequest).2.1 rfl

/-- The message content of the counterexample response: literal JSON text
of a witch classification, exactly as the prompt instructs the model to
answer. -/
def cexContentJson : String :=
  "\x7b\"classification\": \"witch\", \"confidence\": 0.9, \"description\": \"a witch with a pointed hat\"\x7d"

/-- A well-shaped chat response body whose message content is the JSON
text `cexContentJson`. -/
def cexRespBody : JsonVal :=
  JsonVal.obj [(keyChoices, JsonVal.arr
    [JsonVal.obj [(keyMessage, JsonVal.obj [(keyContent, JsonVal.str cexContentJson)])]])]

/-- The value `json.loads` yields on `cexContentJson`: an object binding
classification, confidence and description to "witch", 0.9 and the
description text. -/
def cexParsed : JsonVal :=
  JsonVal.obj [(keyClassification, JsonVal.str strWitch),
    (keyConfidence, JsonVal.num (9/10)),
    (keyDescription, JsonVal.str strWitchDesc)]

/-- `json.loads` restricted to the inputs the counterexample exercises: it
parses the JSON text `cexContentJson` to its value `cexParsed`, and raises
(`none`) on every other string, as `json.loads` does on non-JSON input. -/
def cexParseJson : String → Option JsonVal := fun s =>
  if s == cexContentJson then some cexParsed else none

/-- A response with the non-2xx status 303 and a well-formed body. -/
def cexResp : HttpResult := HttpResult.response 303 (some cexRespBody)

/-- C10 counterexample: on a response with the non-2xx status 303 whose
message content is genuine JSON (`cexContentJson`), `raise_for_status`
does not raise (it raises only for 4xx/5xx), `json.loads` succeeds, and
`classify_costume` returns the parsed triple rather than
`(None, None, None)` - refuting the claim that any non-2xx status yields
the `None` triple. -/
theorem classify_non2xx_cex :
    classify_costume cexParseJson cexResp
        = (some (JsonVal.str strWitch), some (9/10), some (JsonVal.str strWitchDesc)) ∧
      classify_costume cexParseJson cexResp
        ≠ ((none, none, none) : Option JsonVal × Option ℚ × Option JsonVal) := by
  have hpos : classify_costume cexParseJson cexResp
      = (some (JsonVal.str strWitch), some (9/10), some (JsonVal.str strWitchDesc)) := by
    rfl
  refine ⟨hpos, ?_⟩
  intro h
  rw [hpos] at h
  simp at h
